import Mathlib

/-!
Verification of the WinduVision stereo-microscope pipeline.

Shallow embedding of the Python sources:
* `src/process_thread.py`  — class `ProcessThread` (the processing pipeline)
* `src/cam_tune_thread.py` — class `CamTuneThread` (the camera tuning controller)
* `src/WinduModel.py`      — classes `VideoThread` / `AlignThread` (alignment)

Numbers: Python ints are modelled as `ℤ` (image shapes as `ℕ`), Python
floats as `ℚ`.  External library results (camera frames, the OpenCV
correlation maximum, whether a `cv2.VideoWriter` opened) are passed to the
embedded functions as explicit parameters.
-/

namespace WinduVision

/-- Truncation toward zero: the semantics of Python `int()` applied to a
number, as used in `cam_tune_thread.py` line 62 and 65
(`int(diff * self.learn_rate)`): `int(1.5) = 1`, `int(-1.5) = -1`. -/
def trunc_toward_zero (q : ℚ) : ℤ := if 0 ≤ q then ⌊q⌋ else ⌈q⌉

/-- Modelled from the spec: rounding half away from zero, the semantics of
Python `round()` used by the spec formula `gain + round(diff * learn_rate) ± 1`.
`round` does not occur in the source; this definition exists only to compare
the spec formula with the source formula, which uses `int()` truncation. -/
def round_half_away (q : ℚ) : ℤ := if 0 ≤ q then ⌊q + 1/2⌋ else ⌈q - 1/2⌉

/-! ### Depth parameters — `ProcessThread.apply_depth_parameters`
(src/process_thread.py lines 378-381)

The Python method iterates over the given dictionary and does
`setattr(self, key, value)` for every entry.  The depth-parameter keys the
dictionary can carry are `ndisparities` and `SADWindowSize`
(src/process_thread.py lines 53-54). -/

inductive DepthKey where
  | ndisparities
  | sADWindowSize
  deriving DecidableEq, Repr

structure DepthState where
  ndisparities : ℤ
  SADWindowSize : ℤ
  deriving DecidableEq, Repr

/-- One `setattr(self, key, value)` of src/process_thread.py line 381. -/
def setattr_depth (st : DepthState) (kv : DepthKey × ℤ) : DepthState :=
  match kv.1 with
  | DepthKey.ndisparities => { st with ndisparities := kv.2 }
  | DepthKey.sADWindowSize => { st with SADWindowSize := kv.2 }

/-- `ProcessThread.apply_depth_parameters` (src/process_thread.py 378-381):
`for key, value in parameters.items(): setattr(self, key, value)`. -/
def apply_depth_parameters (st : DepthState) (parameters : List (DepthKey × ℤ)) : DepthState :=
  parameters.foldl setattr_depth st

/-- Modelled from the spec: validity of a SAD window size — odd, within
[5,255], and not exceeding either image dimension.  No such check occurs in
`apply_depth_parameters`; the predicate exists to state the claim. -/
def valid_SADWindowSize (v img_width img_height : ℤ) : Prop :=
  v % 2 = 1 ∧ 5 ≤ v ∧ v ≤ 255 ∧ v ≤ img_width ∧ v ≤ img_height

/-! ### ProcessThread control state and main loop
(src/process_thread.py lines 58-65, 147-217) -/

/-- The shape of a captured frame, `(height, width, channels)`. -/
abbrev Shape := ℕ × ℕ × ℕ

/-- The control flags and recording parameters of `ProcessThread`
(src/process_thread.py `__init__parms`, lines 58-65; `fps` is set to 30.0
there and never reassigned; display size comes from `parameters/gui.json`). -/
structure ProcState where
  pausing : Bool
  isPaused : Bool
  recording : Bool
  stopping : Bool
  computingDepth : Bool
  fps : ℚ
  display_width : ℤ
  display_height : ℤ
  deriving DecidableEq, Repr

/-- Externally observable effects of one loop iteration: signals emitted via
the mediator and writes to the video sink. -/
inductive PEvent where
  | display_image
  | set_info_text
  | recording_starts
  | recording_ends
  | sink_open (fps : ℚ) (width height : ℤ)
  | writer_write
  deriving DecidableEq, Repr

/-- One iteration of the `while not self.stopping` body of
`ProcessThread.run` (src/process_thread.py lines 147-217), given the shapes
of the two frames captured at the top of the iteration.
* pausing branch (lines 150-153): set `isPaused`, sleep, `continue` — no
  signal is emitted and nothing is written;
* dimension mismatch (lines 165-169): emit `set_info_text`, `continue`;
* otherwise (lines 173-206): emit `display_image`, emit the fps info text,
  and, when `recording`, write the display frame to the video sink. -/
def run_step (st : ProcState) (shapeR shapeL : Shape) : ProcState × List PEvent :=
  if st.pausing then
    ({ st with isPaused := true }, [])
  else
    let st1 := { st with isPaused := false }
    if shapeR ≠ shapeL then
      (st1, [PEvent.set_info_text])
    else
      (st1, [PEvent.display_image, PEvent.set_info_text] ++
        (if st1.recording then [PEvent.writer_write] else []))

/-- Iterating the loop body over the successive pairs of captured frame
shapes, collecting every emitted event. -/
def run_iter (st : ProcState) (frames : List (Shape × Shape)) : ProcState × List PEvent :=
  match frames with
  | [] => (st, [])
  | f :: rest =>
    let step := run_step st f.1 f.2
    let tail := run_iter step.1 rest
    (tail.1, step.2 ++ tail.2)

/-- The write `self.pausing = True` performed by `ProcessThread.pause`
(src/process_thread.py line 351); the method then busy-waits until the loop
has set `isPaused` (lines 353-354). -/
def pause (st : ProcState) : ProcState := { st with pausing := true }

/-- `ProcessThread.toggle_recording` (src/process_thread.py lines 307-338).
`writer_opens` is the result of `self.writer.isOpened()` for the
`cv2.VideoWriter` created at `(self.fps, (display_width, display_height))`
(line 323).  On failure the method only prints to the console: no signal is
emitted and `recording` is left `False`. -/
def toggle_recording (st : ProcState) (writer_opens : Bool) : ProcState × List PEvent :=
  if !st.recording then
    let evs := [PEvent.sink_open st.fps st.display_width st.display_height]
    if writer_opens then
      ({ st with recording := true }, evs ++ [PEvent.recording_starts])
    else
      (st, evs)
  else
    ({ st with recording := false }, [PEvent.recording_ends])

/-- Result of a call to `ProcessThread.stop` (src/process_thread.py lines
364-376), with the raised Python exception, if any, made explicit. -/
structure StopResult where
  state : ProcState
  writer_released : Bool
  temp_file_removed : Bool
  error : Option String
  deriving DecidableEq, Repr

/-- `ProcessThread.stop` (src/process_thread.py lines 364-376).  When
`recording` is set the method does `self.recording = False`,
`self.writer.release()`, then `os.remove(self.temp_video_fname)` — but the
module imports only `numpy`, `cv2`, `time`, `sys`, `threading`, `json` and
the names of the `constants` module (line 1-3); `os` is not among them, so
the `os.remove` call raises `NameError` and the subsequent line 376
(`self.stopping = True`) is never reached.  When not recording, line 376 is
reached and the loop is shut off. -/
def stop (st : ProcState) : StopResult :=
  if st.recording then
    { state := { st with recording := false },
      writer_released := true,
      temp_file_removed := false,
      error := some "NameError: os is not defined" }
  else
    { state := { st with stopping := true },
      writer_released := false,
      temp_file_removed := false,
      error := none }

/-! ### Offset and zoom commands of ProcessThread
(src/process_thread.py lines 258-268, 270-305, 340-348) -/

/-- `ProcessThread.set_offset` (src/process_thread.py lines 258-268): the
pair of offsets stored after the call.  `x_limit, y_limit = 100, 100`; a
pair with either magnitude above its limit is replaced by `(0, 0)`. -/
def set_offset (offset_x offset_y : ℤ) : ℤ × ℤ :=
  if 100 < |offset_x| ∨ 100 < |offset_y| then (0, 0) else (offset_x, offset_y)

/-- The stored offsets after a sequence of `set_offset` calls, starting from
the initial `(0, 0)` of `__init__parms` (src/process_thread.py line 39);
each call overwrites the stored pair. -/
def offsets_after (calls : List (ℤ × ℤ)) : ℤ × ℤ :=
  calls.foldl (fun _ c => set_offset c.1 c.2) (0, 0)

/-- `ProcessThread.detect_offset` (src/process_thread.py lines 270-305).
The two grayscale shapes are `(rows, cols)`; if they differ the method
returns `None` before any correlation is computed.  Otherwise
`cv2.matchTemplate` correlates the centered middle-50% ROI of the left
image (`imgL[row/4 : 3*row/4, col/4 : 3*col/4]`) against the full right
image; `max_loc` is `cv2.minMaxLoc(mat)[3]`, the `(x, y)` location of the
correlation maximum, passed here as an oracle parameter.  The method
returns `(x_max - col / 4, y_max - row / 4)` with Python integer
division. -/
def detect_offset (shapeR shapeL : ℕ × ℕ) (max_loc : ℕ × ℕ) : Option (ℤ × ℤ) :=
  if shapeR ≠ shapeL then none
  else
    let row := shapeL.1
    let col := shapeL.2
    let offset_y : ℤ := (max_loc.2 : ℤ) - ((row / 4 : ℕ) : ℤ)
    let offset_x : ℤ := (max_loc.1 : ℤ) - ((col / 4 : ℕ) : ℤ)
    some (offset_x, offset_y)

/-- `ProcessThread.zoom_in` (src/process_thread.py lines 340-343); the float
literal `1.01` is modelled by the rational `101/100`. -/
def zoom_in (zoom : ℚ) : ℚ :=
  if zoom * (101/100) < 2 then zoom * (101/100) else zoom

/-- `ProcessThread.zoom_out` (src/process_thread.py lines 345-348). -/
def zoom_out (zoom : ℚ) : ℚ :=
  if 1/2 < zoom / (101/100) then zoom / (101/100) else zoom

inductive ZoomOp where
  | zin
  | zout
  deriving DecidableEq, Repr

def zoom_apply (op : ZoomOp) (zoom : ℚ) : ℚ :=
  match op with
  | ZoomOp.zin => zoom_in zoom
  | ZoomOp.zout => zoom_out zoom

/-- The zoom value after a finite sequence of `zoom_in`/`zoom_out` calls. -/
def zoom_after (zoom : ℚ) (ops : List ZoomOp) : ℚ :=
  ops.foldl (fun z op => zoom_apply op z) zoom

/-! ### VideoThread alignment — `auto_offset` and `AlignThread.run`
(src/WinduModel.py lines 486-533 and 711-720) -/

/-- The offset state of `VideoThread` (src/WinduModel.py line 332). -/
structure VState where
  offset_x : ℤ
  offset_y : ℤ
  deriving DecidableEq, Repr

/-- `VideoThread.set_offset` (src/WinduModel.py lines 486-491): stores both
offsets unconditionally. -/
def vt_set_offset (x y : ℤ) : VState := { offset_x := x, offset_y := y }

/-- Inputs of one `auto_offset` tick: the grayscale shapes `(rows, cols)` of
the two captured frames and the `(x, y)` location of the correlation
maximum returned by `cv2.minMaxLoc` on the `matchTemplate` result. -/
structure AlignTick where
  shapeR : ℕ × ℕ
  shapeL : ℕ × ℕ
  max_loc : ℕ × ℕ
  deriving DecidableEq, Repr

/-- `VideoThread.auto_offset` (src/WinduModel.py lines 493-533).  On a shape
mismatch it returns without touching the state.  Otherwise it computes
`offset_y = y_max - row / 4` and `offset_x = x_max - col / 4`; when
`setting_x_offset` is false, `offset_x` is overwritten with the currently
stored horizontal offset (line 528-529); `set_offset` is called only when
either value differs from the stored one (lines 531-533). -/
def auto_offset (setting_x_offset : Bool) (t : AlignTick) (st : VState) : VState :=
  if t.shapeR ≠ t.shapeL then st
  else
    let row := t.shapeL.1
    let col := t.shapeL.2
    let offset_y : ℤ := (t.max_loc.2 : ℤ) - ((row / 4 : ℕ) : ℤ)
    let offset_x0 : ℤ := (t.max_loc.1 : ℤ) - ((col / 4 : ℕ) : ℤ)
    let offset_x : ℤ := if !setting_x_offset then st.offset_x else offset_x0
    if offset_x ≠ st.offset_x ∨ offset_y ≠ st.offset_y then
      vt_set_offset offset_x offset_y
    else st

/-- The loop of `AlignThread.run` (src/WinduModel.py lines 711-720): each
tick calls `auto_offset(setting_x_offset=False)`. -/
def align_run (setting_x_offset : Bool) (st : VState) (ticks : List AlignTick) : VState :=
  ticks.foldl (fun s t => auto_offset setting_x_offset t s) st

/-! ### CamTuneThread — one tick of the tuning loop
(src/cam_tune_thread.py lines 40-106) -/

/-- The configuration loaded from `parameters/auto_cam.json`
(src/cam_tune_thread.py lines 24-38). -/
structure TuneParms where
  goal : ℚ
  tolerance : ℚ
  learn_rate : ℚ
  gain_max : ℤ
  gain_min : ℤ
  exposure_max : ℤ
  exposure_min : ℤ
  deriving DecidableEq, Repr

/-- The camera-parameter update performed by one tick of
`CamTuneThread.main`: nothing, a gain write, or an exposure write followed
by a gain write. -/
inductive TuneAction where
  | noChange
  | setGain (gain : ℤ)
  | setExposureGain (exposure gain : ℤ)
  deriving DecidableEq, Repr

/-- The out-of-range handling of `CamTuneThread.main`
(src/cam_tune_thread.py lines 70-88) applied to the updated `gain`:
* `gain > gain_max` (line 71): `exposure = exposure - 1`; only if the new
  exposure is still `>= exposure_min` are exposure and `gain_min` written;
* `gain < gain_min` (line 79): `exposure = exposure + 1`; only if the new
  exposure is still `<= exposure_max` are exposure and `gain_max` written;
* otherwise (line 87-88): the updated gain is written. -/
def gain_range_check (p : TuneParms) (gain exposure : ℤ) : TuneAction :=
  if p.gain_max < gain then
    if p.exposure_min ≤ exposure - 1 then
      TuneAction.setExposureGain (exposure - 1) p.gain_min
    else TuneAction.noChange
  else if gain < p.gain_min then
    if exposure + 1 ≤ p.exposure_max then
      TuneAction.setExposureGain (exposure + 1) p.gain_max
    else TuneAction.noChange
  else TuneAction.setGain gain

/-- The decision logic of `CamTuneThread.main` (src/cam_tune_thread.py lines
52-88), given the gain and exposure read from the capture thread and the
mean brightness of the ROI: `diff = goal - mean`; when `diff > tolerance`
the gain becomes `gain + (int(diff * learn_rate) + 1)`, when
`diff < -tolerance` it becomes `gain + (int(diff * learn_rate) - 1)`,
otherwise the tick does nothing; the updated gain then goes through the
range check of lines 70-88. -/
def cam_tune_main (p : TuneParms) (gain exposure : ℤ) (mean : ℚ) : TuneAction :=
  let diff := p.goal - mean
  if p.tolerance < diff then
    gain_range_check p (gain + (trunc_toward_zero (diff * p.learn_rate) + 1)) exposure
  else if diff < -p.tolerance then
    gain_range_check p (gain + (trunc_toward_zero (diff * p.learn_rate) - 1)) exposure
  else TuneAction.noChange

/-- The gain value proposed by lines 61-65 of src/cam_tune_thread.py before
the range check (equal to the unchanged gain when the difference is within
tolerance). -/
def proposed_gain (p : TuneParms) (gain : ℤ) (mean : ℚ) : ℤ :=
  let diff := p.goal - mean
  if p.tolerance < diff then gain + (trunc_toward_zero (diff * p.learn_rate) + 1)
  else if diff < -p.tolerance then gain + (trunc_toward_zero (diff * p.learn_rate) - 1)
  else gain

/-! ## Helper lemmas -/

lemma set_offset_bound (x y : ℤ) :
    |(set_offset x y).1| ≤ 100 ∧ |(set_offset x y).2| ≤ 100 := by
  unfold set_offset
  split
  · simp
  · next h =>
    push_neg at h
    exact ⟨h.1, h.2⟩

lemma foldl_set_offset_bound (calls : List (ℤ × ℤ)) (init : ℤ × ℤ)
    (h1 : |init.1| ≤ 100) (h2 : |init.2| ≤ 100) :
    |(calls.foldl (fun _ c => set_offset c.1 c.2) init).1| ≤ 100 ∧
    |(calls.foldl (fun _ c => set_offset c.1 c.2) init).2| ≤ 100 := by
  induction calls generalizing init with
  | nil => exact ⟨h1, h2⟩
  | cons c rest ih =>
    exact ih (set_offset c.1 c.2) (set_offset_bound c.1 c.2).1 (set_offset_bound c.1 c.2).2

lemma zoom_in_mem {z : ℚ} (h1 : 1/2 ≤ z) (h2 : z ≤ 2) :
    1/2 ≤ zoom_in z ∧ zoom_in z ≤ 2 := by
  unfold zoom_in
  split
  · next h => constructor <;> linarith
  · exact ⟨h1, h2⟩

lemma zoom_out_mem {z : ℚ} (h1 : 1/2 ≤ z) (h2 : z ≤ 2) :
    1/2 ≤ zoom_out z ∧ zoom_out z ≤ 2 := by
  have hdiv : z / (101/100) = z * (100/101) := by ring
  unfold zoom_out
  rw [hdiv]
  split
  · next h => constructor <;> linarith
  · exact ⟨h1, h2⟩

lemma zoom_apply_mem {z : ℚ} (op : ZoomOp) (h1 : 1/2 ≤ z) (h2 : z ≤ 2) :
    1/2 ≤ zoom_apply op z ∧ zoom_apply op z ≤ 2 := by
  cases op
  · exact zoom_in_mem h1 h2
  · exact zoom_out_mem h1 h2

lemma zoom_after_mem {z : ℚ} (ops : List ZoomOp) (h1 : 1/2 ≤ z) (h2 : z ≤ 2) :
    1/2 ≤ zoom_after z ops ∧ zoom_after z ops ≤ 2 := by
  induction ops generalizing z with
  | nil => exact ⟨h1, h2⟩
  | cons op rest ih =>
    exact ih (zoom_apply_mem op h1 h2).1 (zoom_apply_mem op h1 h2).2

/-! ## Claims -/

/-- C5: for every call `set_offset(x, y)`, if `|x| > 100` or `|y| > 100`
then both stored offsets are set to 0, otherwise the stored offsets become
exactly `(x, y)`; after any sequence of `set_offset` calls the stored
offset magnitudes never exceed 100 px (and the clamp surfaces no error:
`set_offset` is total). -/
theorem set_offset_clamps (x y : ℤ) (calls : List (ℤ × ℤ)) :
    (if 100 < |x| ∨ 100 < |y| then set_offset x y = (0, 0)
     else set_offset x y = (x, y)) ∧
    |(set_offset x y).1| ≤ 100 ∧ |(set_offset x y).2| ≤ 100 ∧
    |(offsets_after calls).1| ≤ 100 ∧ |(offsets_after calls).2| ≤ 100 := by
  refine ⟨?_, (set_offset_bound x y).1, (set_offset_bound x y).2, ?_, ?_⟩
  · unfold set_offset
    split <;> rfl
  · exact (foldl_set_offset_bound calls (0, 0) (by decide) (by decide)).1
  · exact (foldl_set_offset_bound calls (0, 0) (by decide) (by decide)).2

/-- C6: starting from any zoom value in `[1/2, 2]`, `zoom_in` multiplies the
zoom by at most `101/100` (and never decreases it), `zoom_out` divides it by
at most `101/100` (and never increases it), and after any finite sequence of
`zoom_in`/`zoom_out` calls the zoom stays within `[1/2, 2]`; a call whose
result would cross a bound leaves the zoom unchanged (the `else` branches of
`zoom_in`/`zoom_out`). -/
theorem zoom_bounded (z : ℚ) (h : 1/2 ≤ z ∧ z ≤ 2) (ops : List ZoomOp) :
    (z ≤ zoom_in z ∧ zoom_in z ≤ z * (101/100)) ∧
    (z * (100/101) ≤ zoom_out z ∧ zoom_out z ≤ z) ∧
    1/2 ≤ zoom_after z ops ∧ zoom_after z ops ≤ 2 := by
  obtain ⟨h1, h2⟩ := h
  refine ⟨?_, ?_, (zoom_after_mem ops h1 h2).1, (zoom_after_mem ops h1 h2).2⟩
  · unfold zoom_in
    split <;> constructor <;> linarith
  · have hdiv : z / (101/100) = z * (100/101) := by ring
    unfold zoom_out
    rw [hdiv]
    split <;> constructor <;> linarith

/-- C6 witness: the zoom bounds instantiated at zoom 1 and the call sequence
`[zoom_in, zoom_out, zoom_out]`. -/
theorem zoom_bounded_witness :
    ((1 : ℚ) ≤ zoom_in 1 ∧ zoom_in 1 ≤ 1 * (101/100)) ∧
    ((1 : ℚ) * (100/101) ≤ zoom_out 1 ∧ zoom_out 1 ≤ 1) ∧
    1/2 ≤ zoom_after 1 [ZoomOp.zin, ZoomOp.zout, ZoomOp.zout] ∧
    zoom_after 1 [ZoomOp.zin, ZoomOp.zout, ZoomOp.zout] ≤ 2 :=
  zoom_bounded 1 (by norm_num) [ZoomOp.zin, ZoomOp.zout, ZoomOp.zout]

/-- C1 counterexample: `apply_depth_parameters` performs no validation.
Applying `{SADWindowSize: 4}` — an even value below 5, illegal for any
image size — to the initial state `{ndisparities := 32, SADWindowSize := 31}`
stores 4 instead of refusing it and keeping 31. -/
theorem apply_depth_parameters_no_validation_cex :
    (apply_depth_parameters ⟨32, 31⟩ [(DepthKey.sADWindowSize, 4)]).SADWindowSize = 4 ∧
    ¬ valid_SADWindowSize 4 640 480 ∧
    (apply_depth_parameters ⟨32, 31⟩ [(DepthKey.sADWindowSize, 4)]).SADWindowSize ≠ 31 := by
  refine ⟨rfl, ?_, by decide⟩
  intro hva
  exact absurd hva.1 (by decide)

/-- C1 (as amended): every value handed to `apply_depth_parameters` is
stored unconditionally by `setattr`, legal or not; no check, rejection or
error path exists at the point of application. -/
theorem apply_depth_parameters_stores_unconditionally (st : DepthState) (n v : ℤ) :
    apply_depth_parameters st [(DepthKey.ndisparities, n)] = { st with ndisparities := n } ∧
    apply_depth_parameters st [(DepthKey.sADWindowSize, v)] = { st with SADWindowSize := v } ∧
    apply_depth_parameters st [(DepthKey.ndisparities, n), (DepthKey.sADWindowSize, v)] =
      { ndisparities := n, SADWindowSize := v } :=
  ⟨rfl, rfl, rfl⟩

lemma auto_offset_x_fixed (t : AlignTick) (st : VState) :
    (auto_offset false t st).offset_x = st.offset_x := by
  by_cases hsh : t.shapeR = t.shapeL
  · simp [auto_offset, vt_set_offset, hsh]
    split <;> rfl
  · simp [auto_offset, hsh]

lemma align_run_x_fixed (ticks : List AlignTick) (st : VState) :
    (align_run false st ticks).offset_x = st.offset_x := by
  induction ticks generalizing st with
  | nil => rfl
  | cons t rest ih =>
    calc (align_run false st (t :: rest)).offset_x
        = (align_run false (auto_offset false t st) rest).offset_x := rfl
      _ = (auto_offset false t st).offset_x := ih (auto_offset false t st)
      _ = st.offset_x := auto_offset_x_fixed t st

/-- C7: with horizontal correction disabled (`setting_x_offset = false`, as
`AlignThread.run` always passes), an `auto_offset` tick never changes the
stored horizontal offset — also across any sequence of ticks — while the
vertical offset is always set to the value computed from the correlation
maximum whenever the two frame shapes match (and left untouched when the
tick aborts on a shape mismatch). -/
theorem auto_offset_horizontal_frozen (t : AlignTick) (st : VState)
    (ticks : List AlignTick) :
    (auto_offset false t st).offset_x = st.offset_x ∧
    (auto_offset false t st).offset_y =
      (if t.shapeR = t.shapeL then (t.max_loc.2 : ℤ) - ((t.shapeL.1 / 4 : ℕ) : ℤ)
       else st.offset_y) ∧
    (align_run false st ticks).offset_x = st.offset_x := by
  refine ⟨auto_offset_x_fixed t st, ?_, align_run_x_fixed ticks st⟩
  by_cases hsh : t.shapeR = t.shapeL
  · rw [if_pos hsh]
    simp [auto_offset, vt_set_offset, hsh]
    split
    · next heq => exact heq.symm
    · rfl
  · rw [if_neg hsh]
    simp [auto_offset, hsh]

lemma run_step_pausing_eq (st : ProcState) (h : st.pausing = true) (a b : Shape) :
    run_step st a b = ({ st with isPaused := true }, []) := by
  unfold run_step
  rw [h]
  simp

lemma run_iter_pausing (st : ProcState) (h : st.pausing = true)
    (frames : List (Shape × Shape)) :
    (run_iter st frames).2 = [] ∧ (run_iter st frames).1.pausing = true := by
  induction frames generalizing st with
  | nil => exact ⟨rfl, h⟩
  | cons f rest ih =>
    have hstep := run_step_pausing_eq st h f.1 f.2
    have htail := ih { st with isPaused := true } h
    simp only [run_iter, hstep]
    exact ⟨by simp [htail.1], htail.2⟩

/-- C8: `pause()` sets the `pausing` flag and returns only once the loop has
confirmed `isPaused`: the first loop iteration after the flag is set
confirms it while publishing nothing; and as long as the flag stays set
(i.e. until `resume()` clears it) every further iteration publishes no
`display_image` and writes no frame to the recording sink — over any
sequence of iterations the list of emitted events is empty. -/
theorem pause_halts_publishing (st : ProcState) (shapeR shapeL : Shape)
    (frames : List (Shape × Shape)) :
    (run_step (pause st) shapeR shapeL).1.isPaused = true ∧
    (run_step (pause st) shapeR shapeL).2 = [] ∧
    (run_iter (pause st) frames).2 = [] ∧
    (run_iter (pause st) frames).1.pausing = true := by
  have hp : (pause st).pausing = true := rfl
  have hstep := run_step_pausing_eq (pause st) hp shapeR shapeL
  have hiter := run_iter_pausing (pause st) hp frames
  exact ⟨by rw [hstep], by rw [hstep], hiter.1, hiter.2⟩

lemma run_step_recording (st : ProcState) (a b : Shape) :
    (run_step st a b).1.recording = st.recording := by
  unfold run_step
  split
  · rfl
  · split <;> rfl

lemma run_step_no_write (st : ProcState) (h : st.recording = false) (a b : Shape) :
    PEvent.writer_write ∉ (run_step st a b).2 := by
  unfold run_step
  split
  · simp
  · split
    · simp
    · simp [h]

lemma run_iter_no_write (st : ProcState) (h : st.recording = false)
    (frames : List (Shape × Shape)) :
    PEvent.writer_write ∉ (run_iter st frames).2 := by
  induction frames generalizing st with
  | nil => simp [run_iter]
  | cons f rest ih =>
    have hrec : (run_step st f.1 f.2).1.recording = false := by
      rw [run_step_recording, h]
    have htail := ih (run_step st f.1 f.2).1 hrec
    have hstep := run_step_no_write st h f.1 f.2
    simp only [run_iter, List.mem_append]
    intro hmem
    rcases hmem with hmem | hmem
    · exact hstep hmem
    · exact htail hmem

/-- C9: `toggle_recording` from the off state always attempts to open the
sink at the pipeline's configured frame rate and current display size; when
the writer fails to open, the state is unchanged — `recording` stays
`false`, no `recording_starts` signal is emitted — and no frame is
subsequently written to a sink over any number of loop iterations. -/
theorem toggle_recording_failure_stays_off (st : ProcState) (wo : Bool)
    (h : st.recording = false) (frames : List (Shape × Shape)) :
    (toggle_recording st wo).2.head? =
      some (PEvent.sink_open st.fps st.display_width st.display_height) ∧
    (toggle_recording st false).1 = st ∧
    (toggle_recording st false).1.recording = false ∧
    PEvent.recording_starts ∉ (toggle_recording st false).2 ∧
    PEvent.writer_write ∉ (run_iter st frames).2 := by
  refine ⟨?_, ?_, ?_, ?_, run_iter_no_write st h frames⟩
  · unfold toggle_recording
    rw [h]
    cases wo <;> rfl
  · unfold toggle_recording
    rw [h]
    rfl
  · unfold toggle_recording
    rw [h]
    simp [h]
  · unfold toggle_recording
    rw [h]
    simp

/-- C9 witness: the failure branch evaluated at a concrete pipeline state
(`recording = false`, fps 30, display 1136 × 640) and two loop iterations. -/
theorem toggle_recording_failure_stays_off_witness :
    (toggle_recording ⟨false, false, false, false, false, 30, 1136, 640⟩ false).2.head? =
      some (PEvent.sink_open 30 1136 640) ∧
    (toggle_recording ⟨false, false, false, false, false, 30, 1136, 640⟩ false).1 =
      ⟨false, false, false, false, false, 30, 1136, 640⟩ ∧
    (toggle_recording ⟨false, false, false, false, false, 30, 1136, 640⟩ false).1.recording
      = false ∧
    PEvent.recording_starts ∉
      (toggle_recording ⟨false, false, false, false, false, 30, 1136, 640⟩ false).2 ∧
    PEvent.writer_write ∉
      (run_iter ⟨false, false, false, false, false, 30, 1136, 640⟩
        [((480, 640, 3), (480, 640, 3)), ((480, 640, 3), (480, 641, 3))]).2 :=
  toggle_recording_failure_stays_off ⟨false, false, false, false, false, 30, 1136, 640⟩
    false rfl [((480, 640, 3), (480, 640, 3)), ((480, 640, 3), (480, 641, 3))]

/-- C2: the code is wrong here.  `ProcessThread.stop` while recording
releases the writer and then calls `os.remove(self.temp_video_fname)`, but
`os` is not imported in src/process_thread.py, so a `NameError` escapes
`stop()`; the temporary file is not removed and — because the exception
aborts the method before line 376 — `self.stopping` is never set, so the
main loop does not exit.  Only `recording = False` and the writer release
take effect. -/
theorem stop_while_recording_raises (st : ProcState) (h : st.recording = true) :
    (stop st).error = some "NameError: os is not defined" ∧
    (stop st).state.stopping = st.stopping ∧
    (stop st).temp_file_removed = false ∧
    (stop st).writer_released = true ∧
    (stop st).state.recording = false := by
  unfold stop
  rw [h]
  exact ⟨rfl, rfl, rfl, rfl, rfl⟩

/-- C2 witness: `stop` evaluated at a concrete recording state. -/
theorem stop_while_recording_raises_witness :
    (stop ⟨false, false, true, false, false, 30, 1136, 640⟩).error =
      some "NameError: os is not defined" ∧
    (stop ⟨false, false, true, false, false, 30, 1136, 640⟩).state.stopping = false ∧
    (stop ⟨false, false, true, false, false, 30, 1136, 640⟩).temp_file_removed = false ∧
    (stop ⟨false, false, true, false, false, 30, 1136, 640⟩).writer_released = true ∧
    (stop ⟨false, false, true, false, false, 30, 1136, 640⟩).state.recording = false :=
  stop_while_recording_raises ⟨false, false, true, false, false, 30, 1136, 640⟩ rfl

lemma cam_tune_main_eq_check (p : TuneParms) (gain exposure : ℤ) (mean : ℚ)
    (hd : p.tolerance < p.goal - mean ∨ p.goal - mean < -p.tolerance) :
    cam_tune_main p gain exposure mean =
      gain_range_check p (proposed_gain p gain mean) exposure := by
  unfold cam_tune_main proposed_gain
  dsimp only
  split
  · rfl
  · next h1 =>
    split
    · rfl
    · next h2 =>
      rcases hd with h | h
      · exact absurd h h1
      · exact absurd h h2

/-- C3 counterexample: the source updates the gain with Python `int()`
truncation, not with `round`.  With goal 128, tolerance 1, learn_rate 1/2,
gain 10, exposure 50 and mean 125 the difference is 3, the code yields gain
`10 + int(1.5) + 1 = 12`, while the claimed formula
`gain + round(diff * learn_rate) + 1` yields 13. -/
theorem cam_tune_trunc_not_round_cex :
    cam_tune_main ⟨128, 1, 1/2, 100, 0, 100, 0⟩ 10 50 125 = TuneAction.setGain 12 ∧
    (10 : ℤ) + round_half_away ((128 - 125) * (1/2)) + 1 = 13 ∧
    TuneAction.setGain 12 ≠ TuneAction.setGain 13 := by
  refine ⟨?_, ?_, by decide⟩
  · norm_num [cam_tune_main, gain_range_check, trunc_toward_zero]
  · norm_num [round_half_away]

/-- C3 (as amended): on every tick where `|goal - mean|` strictly exceeds
the (nonnegative) tolerance and the proposed gain stays within
`[gain_min, gain_max]`, the new gain equals
`gain + int(diff * learn_rate) ± 1` — `int()` truncating toward zero, not
`round` — with the `±1` matching the sign of `diff = goal - mean`; in the
scenario goal 128, tolerance 5, mean 60, learn_rate 1/2 the gain increases
by `int(68 * 0.5) + 1 = 35` (see the witness). -/
theorem cam_tune_gain_update (p : TuneParms) (gain exposure : ℤ) (mean : ℚ)
    (htol : 0 ≤ p.tolerance)
    (hd : p.tolerance < p.goal - mean ∨ p.goal - mean < -p.tolerance)
    (hlo : p.gain_min ≤ proposed_gain p gain mean)
    (hhi : proposed_gain p gain mean ≤ p.gain_max) :
    cam_tune_main p gain exposure mean = TuneAction.setGain (proposed_gain p gain mean) ∧
    proposed_gain p gain mean =
      gain + trunc_toward_zero ((p.goal - mean) * p.learn_rate) +
        (if 0 < p.goal - mean then 1 else -1) := by
  constructor
  · rw [cam_tune_main_eq_check p gain exposure mean hd]
    unfold gain_range_check
    rw [if_neg (not_lt.mpr hhi), if_neg (not_lt.mpr hlo)]
  · rcases hd with h | h
    · have h0 : 0 < p.goal - mean := lt_of_le_of_lt htol h
      unfold proposed_gain
      rw [if_pos h, if_pos h0]
      ring
    · have h0 : ¬ 0 < p.goal - mean := by
        intro h0
        linarith
      have h1 : ¬ p.tolerance < p.goal - mean := by
        intro h1
        linarith
      unfold proposed_gain
      rw [if_neg h1, if_pos h, if_neg h0]
      ring

/-- C3 witness: the end-to-end scenario of the claim — goal 128, tolerance
5, learn_rate 1/2, mean 60, gain 0 with `gain_min = 0`, `gain_max = 100` —
yields a gain increase of 35. -/
theorem cam_tune_gain_update_witness :
    cam_tune_main ⟨128, 5, 1/2, 100, 0, 100, 0⟩ 0 50 60 = TuneAction.setGain 35 ∧
    proposed_gain ⟨128, 5, 1/2, 100, 0, 100, 0⟩ 0 60 = 35 := by
  have hp : proposed_gain ⟨128, 5, 1/2, 100, 0, 100, 0⟩ 0 60 = 35 := by
    norm_num [proposed_gain, trunc_toward_zero]
  have h := cam_tune_gain_update ⟨128, 5, 1/2, 100, 0, 100, 0⟩ 0 50 60
    (by norm_num) (Or.inl (by norm_num)) (by rw [hp]; norm_num) (by rw [hp]; norm_num)
  exact ⟨by rw [h.1, hp], hp⟩

/-- C4 counterexample: when the proposed gain exceeds `gain_max` but the
exposure is already at `exposure_min`, the tick applies nothing at all —
it neither decreases the exposure nor resets the gain.  Concretely with
goal 128, tolerance 1, learn_rate 1/2, `gain_max = 100`,
`exposure_min = 50`, gain 90, exposure 50 and mean 100, the proposed gain
is 105 > 100, yet the action is `noChange`, not the claimed
exposure-decrease-and-gain-reset. -/
theorem cam_tune_overflow_no_headroom_cex :
    cam_tune_main ⟨128, 1, 1/2, 100, 0, 100, 50⟩ 90 50 100 = TuneAction.noChange ∧
    proposed_gain ⟨128, 1, 1/2, 100, 0, 100, 50⟩ 90 100 = 105 ∧
    (100 : ℤ) < 105 ∧
    TuneAction.noChange ≠ TuneAction.setExposureGain 49 0 := by
  refine ⟨?_, ?_, by decide, by decide⟩
  · norm_num [cam_tune_main, gain_range_check, trunc_toward_zero]
  · norm_num [proposed_gain, trunc_toward_zero]

/-- C4 (as amended): on every tick with `|goal - mean|` above the
(nonnegative) tolerance and a sane gain range, an out-of-range proposed
gain is never applied: if the proposed gain exceeds `gain_max`, the
controller decreases exposure by one step and resets the gain to
`gain_min` — provided the decreased exposure stays at or above
`exposure_min`, otherwise it changes nothing; mirror logic (exposure one
step up, gain reset to `gain_max`, subject to `exposure_max`) when the
proposed gain underflows `gain_min`; in no out-of-range case is a bare
gain write performed, so gain (by the proposed amount) and exposure are
never both adjusted in one tick. -/
theorem cam_tune_gain_out_of_range (p : TuneParms) (gain exposure : ℤ) (mean : ℚ)
    (htol : 0 ≤ p.tolerance)
    (hgm : p.gain_min ≤ p.gain_max)
    (hd : p.tolerance < p.goal - mean ∨ p.goal - mean < -p.tolerance) :
    (p.gain_max < proposed_gain p gain mean →
      cam_tune_main p gain exposure mean =
        (if p.exposure_min ≤ exposure - 1 then
           TuneAction.setExposureGain (exposure - 1) p.gain_min
         else TuneAction.noChange)) ∧
    (proposed_gain p gain mean < p.gain_min →
      cam_tune_main p gain exposure mean =
        (if exposure + 1 ≤ p.exposure_max then
           TuneAction.setExposureGain (exposure + 1) p.gain_max
         else TuneAction.noChange)) ∧
    ((p.gain_max < proposed_gain p gain mean ∨ proposed_gain p gain mean < p.gain_min) →
      ∀ g, cam_tune_main p gain exposure mean ≠ TuneAction.setGain g) := by
  rw [cam_tune_main_eq_check p gain exposure mean hd]
  refine ⟨?_, ?_, ?_⟩
  · intro hover
    unfold gain_range_check
    rw [if_pos hover]
  · intro hunder
    have hnover : ¬ p.gain_max < proposed_gain p gain mean := by omega
    unfold gain_range_check
    rw [if_neg hnover, if_pos hunder]
  · intro hout g
    unfold gain_range_check
    rcases hout with hover | hunder
    · rw [if_pos hover]
      split <;> simp
    · have hnover : ¬ p.gain_max < proposed_gain p gain mean := by omega
      rw [if_neg hnover, if_pos hunder]
      split <;> simp

/-- C4 witness: goal 128, tolerance 1, learn_rate 1/2, gain range [0, 100],
exposure range [0, 100], gain 95, exposure 50, mean 100: the proposed gain
110 exceeds the maximum, so the tick decreases exposure to 49 and resets
the gain to the minimum 0. -/
theorem cam_tune_gain_out_of_range_witness :
    cam_tune_main ⟨128, 1, 1/2, 100, 0, 100, 0⟩ 95 50 100 =
      TuneAction.setExposureGain 49 0 := by
  have hp : proposed_gain ⟨128, 1, 1/2, 100, 0, 100, 0⟩ 95 100 = 110 := by
    norm_num [proposed_gain, trunc_toward_zero]
  have h := (cam_tune_gain_out_of_range ⟨128, 1, 1/2, 100, 0, 100, 0⟩ 95 50 100
    (by norm_num) (by norm_num) (Or.inl (by norm_num))).1 (by rw [hp]; norm_num)
  rw [h]
  norm_num

/-- C10: `detect_offset` returns `none` whenever the two grayscale frame
shapes differ, before any correlation is computed; for equal shapes it
returns the pair of integer offsets
`(x_max - col / 4, y_max - row / 4)` derived from the location of the
correlation maximum of the centered middle-50% ROI of the left image
matched against the full right image. -/
theorem detect_offset_spec (shapeR shapeL max_loc : ℕ × ℕ) :
    (shapeR ≠ shapeL → detect_offset shapeR shapeL max_loc = none) ∧
    (shapeR = shapeL →
      detect_offset shapeR shapeL max_loc =
        some ((max_loc.1 : ℤ) - ((shapeL.2 / 4 : ℕ) : ℤ),
              (max_loc.2 : ℤ) - ((shapeL.1 / 4 : ℕ) : ℤ))) := by
  constructor
  · intro h
    simp [detect_offset, h]
  · intro h
    simp [detect_offset, h]

/-- C10 witness: equal 100 × 100 shapes with correlation maximum at
`(30, 20)` give offsets `(30 - 25, 20 - 25) = (5, -5)`; a mismatched pair
of shapes gives `none`. -/
theorem detect_offset_spec_witness :
    detect_offset (100, 100) (100, 100) (30, 20) = some (5, -5) ∧
    detect_offset (100, 101) (100, 100) (30, 20) = none := by
  constructor
  · have h := (detect_offset_spec (100, 100) (100, 100) (30, 20)).2 rfl
    rw [h]
    rfl
  · exact (detect_offset_spec (100, 101) (100, 100) (30, 20)).1 (by decide)

end WinduVision
